import Mathlib

/-
Verification of the conversation hook of the vocode-react-sdk repository
(src/hooks/conversation.ts), as a shallow embedding in Lean 4.

The embedding follows the source:
  - pure helpers (getStartMessage, getAudioConfigStartMessage, the transcript
    merge inside socket.onmessage, recordingDataListener, stopConversation and
    the leading guard of startConversation) become Lean functions;
  - the event-driven parts (the websocket handshake and the playback queue
    effect) become explicit labelled transition systems with a reachability
    predicate, over which the temporal and invariant claims are proved.
-/

namespace VocodeReactSDK

/-! ## Data model (src/types, as used by conversation.ts) -/

/-- ConversationStatus, the string union "idle" | "connecting" | "connected" | "error". -/
inductive ConvStatus
  | idle
  | connecting
  | connected
  | error
deriving DecidableEq, Repr

/-- CurrentSpeaker, the string union "none" | "user" | "agent". -/
inductive CurrentSpeaker
  | none
  | user
  | agent
deriving DecidableEq, Repr

/-- Transcript entries, objects with a sender and a text field. -/
structure Transcript where
  sender : String
  text : String
deriving DecidableEq, Repr

/-- The samplingRate/audioEncoding pair built in startConversation
(inputAudioMetadata / outputAudioMetadata). -/
structure AudioMetadata where
  samplingRate : Nat
  audioEncoding : String
deriving DecidableEq, Repr

/-- TranscriberConfig; the deepgram extension's optional downsampling field is
folded in as an Option, mirroring the DeepgramTranscriberConfig cast in the
source. -/
structure TranscriberConfig where
  type : String
  chunkSize : Nat
  samplingRate : Nat
  audioEncoding : String
  downsampling : Option Nat
deriving DecidableEq, Repr

/-- SynthesizerConfig, as far as conversation.ts touches it: an opaque kind tag
plus the output audio fields overwritten by Object.assign. -/
structure SynthesizerConfig where
  type : String
  samplingRate : Nat
  audioEncoding : String
deriving DecidableEq, Repr

/-- VocodeConfig: an opaque API key plus optional conversation id and base URL. -/
structure VocodeConfig where
  apiKey : String
  conversationId : Option String
  baseUrl : Option String
deriving DecidableEq, Repr

/-- ConversationConfig, the full-service configuration: all four sections present.
The agent configuration is passed through untouched, so it is kept opaque. -/
structure ConversationConfig where
  transcriberConfig : TranscriberConfig
  agentConfig : String
  synthesizerConfig : SynthesizerConfig
  vocodeConfig : VocodeConfig
deriving DecidableEq, Repr

/-- The hook's config parameter, ConversationConfig | SelfHostedConversationConfig.
TypeScript discriminates by key presence, so every key that either variant may
carry becomes an Option: Option.isSome models the JavaScript `key in config`
test. -/
structure HookConfig where
  transcriberConfig : Option TranscriberConfig
  agentConfig : Option String
  synthesizerConfig : Option SynthesizerConfig
  vocodeConfig : Option VocodeConfig
  backendUrl : Option String
  timeSlice : Option Nat
  chunkSize : Option Nat
  downsampling : Option Nat
  conversationId : Option String
  subscribeTranscript : Option Bool
deriving DecidableEq, Repr

/-! ## SessionProtocol messages (src/types/vocode/websocket.ts) -/

/-- StartMessage, the full-service start variant (type "websocket_start"). -/
structure StartMessage where
  type : String
  transcriberConfig : TranscriberConfig
  agentConfig : String
  synthesizerConfig : SynthesizerConfig
  conversationId : Option String
deriving DecidableEq, Repr

/-- The inputAudioConfig section of AudioConfigStartMessage. -/
structure InputAudioConfig where
  samplingRate : Nat
  audioEncoding : String
  chunkSize : Nat
  downsampling : Option Nat
deriving DecidableEq, Repr

/-- The outputAudioConfig section of AudioConfigStartMessage. -/
structure OutputAudioConfig where
  samplingRate : Nat
  audioEncoding : String
deriving DecidableEq, Repr

/-- AudioConfigStartMessage, the self-hosted start variant
(type "websocket_audio_config_start"). -/
structure AudioConfigStartMessage where
  type : String
  inputAudioConfig : InputAudioConfig
  outputAudioConfig : OutputAudioConfig
  conversationId : Option String
  subscribeTranscript : Option Bool
deriving DecidableEq, Repr

/-- The outbound audio message (type "websocket_audio"), base64 payload. -/
structure AudioMessage where
  type : String
  data : String
deriving DecidableEq, Repr

/-- One of the two mutually exclusive start variants chosen by startConversation. -/
inductive StartVariantMsg
  | full (m : StartMessage)
  | selfHosted (m : AudioConfigStartMessage)
deriving DecidableEq, Repr

/-- The wire discriminant of the chosen start variant. -/
def StartVariantMsg.msgType : StartVariantMsg → String
  | .full m => m.type
  | .selfHosted m => m.type

/-! ## Pure helpers of conversation.ts -/

/-- DEFAULT_CHUNK_SIZE from conversation.ts line 28. -/
def DEFAULT_CHUNK_SIZE : Nat := 2048

/-- JavaScript numeric `x || d`: undefined and 0 are falsy and fall through to
the default, any other number is kept.  Models `chunkSize || DEFAULT_CHUNK_SIZE`. -/
def jsOrNat (x : Option Nat) (d : Nat) : Nat :=
  match x with
  | some n => if n = 0 then d else n
  | none => d

/-- getStartMessage (conversation.ts lines 161-187).  Object.assign overwrites
samplingRate and audioEncoding on the transcriber and synthesizer configs with
the negotiated metadata; because the source mutates config.transcriberConfig in
place before building the returned record, the Safari/deepgram downsampling
write is visible in the returned message, which this translation reproduces. -/
def getStartMessage (safari : Bool) (config : ConversationConfig)
    (inputAudioMetadata outputAudioMetadata : AudioMetadata) : StartMessage :=
  let tc0 : TranscriberConfig :=
    { config.transcriberConfig with
      samplingRate := inputAudioMetadata.samplingRate,
      audioEncoding := inputAudioMetadata.audioEncoding }
  let tc : TranscriberConfig :=
    if safari && (tc0.type == "transcriber_deepgram") then
      { tc0 with downsampling := some 2 }
    else tc0
  { type := "websocket_start",
    transcriberConfig := tc,
    agentConfig := config.agentConfig,
    synthesizerConfig :=
      { config.synthesizerConfig with
        samplingRate := outputAudioMetadata.samplingRate,
        audioEncoding := outputAudioMetadata.audioEncoding },
    conversationId := config.vocodeConfig.conversationId }

/-- getAudioConfigStartMessage (conversation.ts lines 189-210). -/
def getAudioConfigStartMessage (inputAudioMetadata outputAudioMetadata : AudioMetadata)
    (chunkSize : Option Nat) (downsampling : Option Nat)
    (conversationId : Option String) (subscribeTranscript : Option Bool) :
    AudioConfigStartMessage :=
  { type := "websocket_audio_config_start",
    inputAudioConfig :=
      { samplingRate := inputAudioMetadata.samplingRate,
        audioEncoding := inputAudioMetadata.audioEncoding,
        chunkSize := jsOrNat chunkSize DEFAULT_CHUNK_SIZE,
        downsampling := downsampling },
    outputAudioConfig :=
      { samplingRate := outputAudioMetadata.samplingRate,
        audioEncoding := outputAudioMetadata.audioEncoding },
    conversationId := conversationId,
    subscribeTranscript := subscribeTranscript }

/-- The start-variant selection of startConversation (lines 395-420): the
full-service variant is used exactly when the keys transcriberConfig,
agentConfig, synthesizerConfig and vocodeConfig are all present on the config. -/
def selectStartMessage (safari : Bool) (c : HookConfig)
    (inM outM : AudioMetadata) : StartVariantMsg :=
  match c.transcriberConfig, c.agentConfig, c.synthesizerConfig, c.vocodeConfig with
  | some tc, some ac, some sc, some vc =>
      .full (getStartMessage safari ⟨tc, ac, sc, vc⟩ inM outM)
  | _, _, _, _ =>
      .selfHosted (getAudioConfigStartMessage inM outM c.chunkSize c.downsampling
        c.conversationId c.subscribeTranscript)

/-- Math.round of the nonnegative rational a / b: floor (a / b + 1 / 2),
written with natural division. -/
def roundDiv (a b : Nat) : Nat := (2 * a + b) / (2 * b)

/-- The capture time-slice computation of startConversation (lines 442-452):
when the built start message has a transcriberConfig (full-service variant),
round (1000 * chunkSize / samplingRate); otherwise the config's timeSlice key
when present; otherwise 10 ms. -/
def computeTimeSlice (m : StartVariantMsg) (c : HookConfig) : Nat :=
  match m with
  | .full sm =>
      roundDiv (1000 * sm.transcriberConfig.chunkSize) sm.transcriberConfig.samplingRate
  | .selfHosted _ =>
      match c.timeSlice with
      | some t => t
      | none => 10

/-- The transcript-merge update applied by socket.onmessage on a
websocket_transcript message (lines 334-353): pop the last entry; if it exists
and has the fragment's sender, push the space-joined merge, otherwise push the
popped entry back followed by a fresh entry. -/
def updateTranscripts (prev : List Transcript) (m : Transcript) : List Transcript :=
  match prev.getLast? with
  | some last =>
      if last.sender = m.sender then
        prev.dropLast ++ [{ sender := m.sender, text := last.text ++ " " ++ m.text }]
      else
        prev.dropLast ++ [last, { sender := m.sender, text := m.text }]
  | none => [{ sender := m.sender, text := m.text }]

/-- WebSocket.OPEN readyState constant. -/
def wsOPEN : Nat := 1

/-- recordingDataListener (lines 66-76), after blobToBase64 resolved: its
observable effect is the optionally sent websocket_audio message paired with
the optionally recorded error.  A null base64 result returns early; a
non-OPEN readyState short-circuits the send; no path records an error. -/
def recordingDataListener (base64Encoded : Option String) (readyState : Nat) :
    Option AudioMessage × Option String :=
  match base64Encoded with
  | none => (Option.none, Option.none)
  | some b =>
      (if readyState = wsOPEN then some { type := "websocket_audio", data := b }
       else Option.none,
       Option.none)

/-! ## Hook state, stopConversation and the startConversation guard -/

/-- The slice of the hook's React state that stopConversation and the leading
guard of startConversation read and write.  recorder and socket record whether
those handles exist (undefined in the source is false here). -/
structure HookState where
  audioQueue : List (List Nat)
  currentSpeaker : CurrentSpeaker
  status : ConvStatus
  error : Option String
  recorder : Bool
  socket : Bool
deriving DecidableEq, Repr

/-- The hook's initial state: empty queue, speaker "none", status "idle",
no error, no recorder, no socket. -/
def hookInit : HookState :=
  { audioQueue := [], currentSpeaker := CurrentSpeaker.none,
    status := ConvStatus.idle, error := Option.none,
    recorder := false, socket := false }

/-- stopConversation (lines 132-148): clear the queue, reset the speaker, set
status error (recording the error) or idle, and only when both the recorder and
the socket exist send the websocket_stop message (second component lists the
outbound message types sent).  The idle branch leaves any previously recorded
error untouched, as the source has no setError(undefined) here. -/
def stopConversation (err : Option String) (s : HookState) : HookState × List String :=
  let s1 : HookState :=
    { s with
      audioQueue := [],
      currentSpeaker := CurrentSpeaker.none,
      error :=
        match err with
        | some e => some e
        | Option.none => s.error,
      status :=
        match err with
        | some _ => ConvStatus.error
        | Option.none => ConvStatus.idle }
  if s1.recorder && s1.socket then (s1, ["websocket_stop"]) else (s1, [])

/-- The leading guard of startConversation (lines 306-322), up to the point
where the WebSocket would be created: a missing audio context returns silently;
otherwise status becomes connecting, and a capability probe identifying neither
Safari nor Chrome stops the conversation with the "Unsupported browser" error.
The Bool says whether execution proceeds to open a channel. -/
def startConversationGuard (hasAudioContext safariProbe chromeProbe : Bool)
    (s : HookState) : HookState × List String × Bool :=
  if hasAudioContext = false then (s, [], false)
  else
    let s1 : HookState := { s with status := ConvStatus.connecting }
    if safariProbe = false && chromeProbe = false then
      match stopConversation (some ("Unsupported browser")) s1 with
      | (s2, ms) => (s2, ms, false)
    else (s1, [], true)

/-! ## The handshake protocol transition system

startConversation (lines 306-462) together with the socket.onmessage handler
(lines 328-354) and the listener-attachment effect (lines 79-91) form an
event-driven process.  Its events:
  - startCalled: a startConversation invocation creating a fresh socket;
  - socketOpened: the WebSocket reaches readyState OPEN;
  - sendStart: the readiness poll (lines 361-368) observes readyState OPEN and
    the code proceeds to send the start-variant message (line 422) and start or
    resume the recorder (lines 432-461) — once per invocation;
  - recvReady: an inbound websocket_ready message sets status connected
    (lines 332-333);
  - dataAvailable: the recorder emits a chunk; the outbound websocket_audio
    message is produced only while the listener is attached, which requires
    status connected and the active flag (lines 79-91);
  - toggleActive: the user flips the active flag.
The sent list records the outbound payload messages of the current socket. -/

/-- Outbound payload messages on the conversation socket, abstracted to the
variant tag: the start-variant (either shape) or an audio message. -/
inductive ProtoMsg
  | startVariant
  | audio (data : String)
deriving DecidableEq, Repr

/-- Events of the handshake transition system. -/
inductive ProtoEvent
  | startCalled
  | socketOpened
  | recvReady
  | sendStart
  | dataAvailable (d : String)
  | toggleActive
deriving DecidableEq, Repr

/-- Protocol-relevant state of one conversation attempt: the hook status, the
socket's open flag, whether this invocation already sent its start variant,
whether websocket_ready was observed, whether the recorder is emitting, the
user's active flag, and the outbound payload messages of the current socket. -/
structure ProtoState where
  status : ConvStatus
  socketOpen : Bool
  startSent : Bool
  readySeen : Bool
  recorderOn : Bool
  active : Bool
  sent : List ProtoMsg
deriving DecidableEq, Repr

/-- Initial hook state: idle, no socket, nothing sent, active defaults to true. -/
def protoInit : ProtoState :=
  { status := ConvStatus.idle, socketOpen := false, startSent := false,
    readySeen := false, recorderOn := false, active := true, sent := [] }

/-- One step of the handshake system.  Guards mirror the source: the start
variant is sent as soon as the poll sees readyState OPEN (socket open), once
per invocation; audio data flows only when the recorder was started, the status
is connected (websocket_ready observed) and the active flag holds. -/
inductive ProtoStep : ProtoState → ProtoEvent → ProtoState → Prop
  | startCalled (s : ProtoState) :
      ProtoStep s ProtoEvent.startCalled
        { s with
          status := ConvStatus.connecting, socketOpen := false,
          startSent := false, readySeen := false, recorderOn := false, sent := [] }
  | socketOpened (s : ProtoState) (h : s.status = ConvStatus.connecting) :
      ProtoStep s ProtoEvent.socketOpened { s with socketOpen := true }
  | recvReady (s : ProtoState) (h : s.socketOpen = true) :
      ProtoStep s ProtoEvent.recvReady
        { s with readySeen := true, status := ConvStatus.connected }
  | sendStart (s : ProtoState) (h1 : s.socketOpen = true) (h2 : s.startSent = false) :
      ProtoStep s ProtoEvent.sendStart
        { s with
          startSent := true, recorderOn := true,
          sent := s.sent ++ [ProtoMsg.startVariant] }
  | dataAvailable (s : ProtoState) (d : String) (h1 : s.recorderOn = true)
      (h2 : s.status = ConvStatus.connected) (h3 : s.active = true) :
      ProtoStep s (ProtoEvent.dataAvailable d)
        { s with sent := s.sent ++ [ProtoMsg.audio d] }
  | toggleActive (s : ProtoState) :
      ProtoStep s ProtoEvent.toggleActive { s with active := !s.active }

/-- States reachable from the initial hook state. -/
inductive ProtoReachable : ProtoState → Prop
  | init : ProtoReachable protoInit
  | step {s : ProtoState} {e : ProtoEvent} {s2 : ProtoState} :
      ProtoReachable s → ProtoStep s e s2 → ProtoReachable s2

/-! ## The playback queue transition system

The playback effect (conversation.ts lines 102-130) together with the
websocket_audio branch of socket.onmessage (lines 330-331) and toggleActive.
Chunks are identified by Nat.  Ghost fields arrived and played record the full
enqueue history and the play-start history; playing holds the chunks currently
inside a decode-and-play task (a list precisely so that single-activeness is a
provable fact, not a typing artifact). -/

/-- State of the playback queue effect. -/
structure PlayState where
  queue : List Nat
  processing : Bool
  playing : List Nat
  speaker : CurrentSpeaker
  active : Bool
  arrived : List Nat
  played : List Nat
deriving DecidableEq, Repr

/-- Initial playback state: everything empty, speaker "none", active true. -/
def playInit : PlayState :=
  { queue := [], processing := false, playing := [], speaker := CurrentSpeaker.none,
    active := true, arrived := [], played := [] }

/-- One step of the playback system:
  - enqueue: an inbound websocket_audio message appends a chunk;
  - beginPlay: the effect fires with processing false, a non-empty queue and
    active true — it sets processing, shifts the oldest chunk, starts its
    playback and sets the speaker to agent;
  - endPlay: source.onended — drop the finished chunk, set the speaker to user
    when the queue is empty, clear processing;
  - setActive: the user toggles the active flag. -/
inductive PlayStep : PlayState → PlayState → Prop
  | enqueue (s : PlayState) (c : Nat) :
      PlayStep s { s with queue := s.queue ++ [c], arrived := s.arrived ++ [c] }
  | beginPlay (s : PlayState) (c : Nat) (rest : List Nat)
      (h1 : s.processing = false) (h2 : s.queue = c :: rest) (h3 : s.active = true) :
      PlayStep s
        { s with
          processing := true, queue := rest, playing := s.playing ++ [c],
          speaker := CurrentSpeaker.agent, played := s.played ++ [c] }
  | endPlay (s : PlayState) (c : Nat) (rest : List Nat) (h : s.playing = c :: rest) :
      PlayStep s
        { s with
          playing := rest, processing := false,
          speaker := if s.queue = [] then CurrentSpeaker.user else s.speaker }
  | setActive (s : PlayState) (b : Bool) :
      PlayStep s { s with active := b }

/-- Playback states reachable from the initial state. -/
inductive PlayReachable : PlayState → Prop
  | init : PlayReachable playInit
  | step {s s2 : PlayState} : PlayReachable s → PlayStep s s2 → PlayReachable s2

/-! ## Invariant lemmas -/

/-- Invariant of the handshake system: the recorder only runs after the start
variant was sent; nothing is sent before the start variant; once sent, the
socket is open, the start variant heads the sent list and everything after it
is audio. -/
theorem protoInv_reachable (s : ProtoState) (h : ProtoReachable s) :
    (s.recorderOn = true → s.startSent = true) ∧
    (s.startSent = false → s.sent = []) ∧
    (s.startSent = true → s.socketOpen = true ∧
      ∃ l, s.sent = ProtoMsg.startVariant :: l ∧ ∀ m ∈ l, ∃ d, m = ProtoMsg.audio d) := by
  induction h with
  | init => exact ⟨by simp [protoInit], by simp [protoInit], by simp [protoInit]⟩
  | step hr hstep ih =>
    obtain ⟨ih1, ih2, ih3⟩ := ih
    cases hstep with
    | startCalled => exact ⟨by simp, by simp, by simp⟩
    | socketOpened h =>
      refine ⟨ih1, ih2, ?_⟩
      intro hss
      obtain ⟨_, l, hl, hall⟩ := ih3 hss
      exact ⟨rfl, l, hl, hall⟩
    | recvReady h =>
      refine ⟨ih1, ih2, ?_⟩
      intro hss
      obtain ⟨ho, l, hl, hall⟩ := ih3 hss
      exact ⟨ho, l, hl, hall⟩
    | sendStart h1 h2 =>
      refine ⟨fun _ => rfl, by simp, ?_⟩
      intro _
      refine ⟨h1, [], ?_, by simp⟩
      simp [ih2 h2]
    | dataAvailable d h1 h2 h3 =>
      have hss := ih1 h1
      obtain ⟨ho, l, hl, hall⟩ := ih3 hss
      refine ⟨fun _ => hss, by simp [hss], ?_⟩
      intro _
      refine ⟨ho, l ++ [ProtoMsg.audio d], by simp [hl], ?_⟩
      intro m hm
      rcases List.mem_append.mp hm with hm2 | hm2
      · exact hall m hm2
      · exact ⟨d, by simpa using hm2⟩
    | toggleActive => exact ⟨ih1, ih2, ih3⟩

/-- Invariant of the playback system: at most one chunk is ever inside a
playback task; an idle processing flag means nothing is playing; the play-start
history followed by the pending queue is exactly the arrival history (FIFO, no
drop, no duplication); and whenever a chunk is playing the speaker is agent. -/
theorem playInv_reachable (s : PlayState) (h : PlayReachable s) :
    s.playing.length ≤ 1 ∧
    (s.processing = false → s.playing = []) ∧
    s.played ++ s.queue = s.arrived ∧
    (s.playing ≠ [] → s.speaker = CurrentSpeaker.agent) := by
  induction h with
  | init => exact ⟨by simp [playInit], by simp [playInit], by simp [playInit], by simp [playInit]⟩
  | step hr hstep ih =>
    obtain ⟨ih1, ih2, ih3, ih4⟩ := ih
    cases hstep with
    | enqueue c =>
      refine ⟨by simpa using ih1, by simpa using ih2, ?_, by simpa using ih4⟩
      simp only [← List.append_assoc, ih3]
    | beginPlay c rest h1 h2 h3 =>
      have hempty := ih2 h1
      refine ⟨by simp [hempty], by simp, ?_, by simp⟩
      rw [h2] at ih3
      simpa [List.append_assoc] using ih3
    | endPlay c rest h =>
      have hrest : rest = [] := by
        rw [h] at ih1
        simp only [List.length_cons] at ih1
        exact List.length_eq_zero.mp (by omega)
      exact ⟨by simp [hrest], fun _ => hrest, ih3, by simp [hrest]⟩
    | setActive b => exact ⟨ih1, ih2, ih3, ih4⟩

/-! ## Claim theorems -/

/-- C2: on every incoming transcript fragment, a non-empty transcript whose last
entry has the fragment's sender gets its last text replaced by the space-joined
concatenation, otherwise a new entry is appended; and the fragment stream
(user, hi), (user, there), (agent, hello) applied to the empty transcript
yields exactly (user, hi there), (agent, hello). -/
theorem C2_transcript_merge :
    (∀ (pre : List Transcript) (s t s2 u : String),
      updateTranscripts (pre ++ [⟨s, t⟩]) ⟨s2, u⟩ =
        if s = s2 then pre ++ [⟨s2, t ++ " " ++ u⟩]
        else pre ++ [⟨s, t⟩, ⟨s2, u⟩]) ∧
    (∀ s u : String, updateTranscripts [] ⟨s, u⟩ = [⟨s, u⟩]) ∧
    List.foldl updateTranscripts []
      [⟨"user", "hi"⟩, ⟨"user", "there"⟩, ⟨"agent", "hello"⟩] =
      [⟨"user", "hi there"⟩, ⟨"agent", "hello"⟩] := by
  refine ⟨?_, ?_, by decide⟩
  · intro pre s t s2 u
    unfold updateTranscripts
    rw [List.getLast?_concat]
    by_cases hs : s = s2
    · subst hs
      simp [List.dropLast_concat]
    · simp [List.dropLast_concat, hs]
  · intro s u
    rfl

/-- C3: the full-service start variant (websocket_start) is selected exactly
when the transcriber, agent, synthesizer and vocode configuration keys are all
present; a configuration missing at least one of the four yields the
self-hosted variant (websocket_audio_config_start). -/
theorem C3_variant_selection (safari : Bool) (c : HookConfig)
    (inM outM : AudioMetadata) :
    (selectStartMessage safari c inM outM).msgType =
      if c.transcriberConfig.isSome ∧ c.agentConfig.isSome ∧
          c.synthesizerConfig.isSome ∧ c.vocodeConfig.isSome
      then "websocket_start" else "websocket_audio_config_start" := by
  rcases htc : c.transcriberConfig with _ | tc <;>
    rcases hac : c.agentConfig with _ | ac <;>
      rcases hsc : c.synthesizerConfig with _ | sc <;>
        rcases hvc : c.vocodeConfig with _ | vc <;>
          simp [selectStartMessage, htc, hac, hsc, hvc, StartVariantMsg.msgType,
            getStartMessage, getAudioConfigStartMessage]

/-- C6: when the capability probe identifies Safari and the transcriber config
has the streaming-deepgram kind, the built full-service start message carries
downsampling 2 on its transcriber config; for any other probe/transcriber
combination the field keeps its configured value. -/
theorem C6_safari_downsampling (safari : Bool) (c : ConversationConfig)
    (inM outM : AudioMetadata) :
    (getStartMessage safari c inM outM).transcriberConfig.downsampling =
      if safari = true ∧ c.transcriberConfig.type = "transcriber_deepgram"
      then some 2 else c.transcriberConfig.downsampling := by
  unfold getStartMessage
  cases safari <;>
    by_cases ht : c.transcriberConfig.type = "transcriber_deepgram" <;>
      simp [ht]

/-- C7: the capture time slice is the rounded 1000 * chunkSize / samplingRate
(with the negotiated input sampling rate) whenever the full-service variant is
used; otherwise the configured timeSlice override when present; otherwise the
fixed 10 ms default. -/
theorem C7_time_slice :
    (∀ (safari : Bool) (cc : ConversationConfig) (inM outM : AudioMetadata)
        (c : HookConfig),
      computeTimeSlice (StartVariantMsg.full (getStartMessage safari cc inM outM)) c =
        roundDiv (1000 * cc.transcriberConfig.chunkSize) inM.samplingRate) ∧
    (∀ (m : AudioConfigStartMessage) (c : HookConfig) (t : Nat),
      computeTimeSlice (StartVariantMsg.selfHosted m) { c with timeSlice := some t } = t) ∧
    (∀ (m : AudioConfigStartMessage) (c : HookConfig),
      computeTimeSlice (StartVariantMsg.selfHosted m)
        { c with timeSlice := Option.none } = 10) := by
  refine ⟨?_, fun m c t => rfl, fun m c => rfl⟩
  intro safari cc inM outM c
  unfold computeTimeSlice getStartMessage
  by_cases ht : safari && (cc.transcriberConfig.type == "transcriber_deepgram") <;>
    simp [ht]

/-- C8: stopping an idle session that has no recorder and no previously
recorded error does not record an error, leaves the status idle, and sends
nothing on the (absent) channel; the translation is a total function, matching
the absence of any throwing path in the source. -/
theorem C8_stop_idle_noop (s : HookState) (h1 : s.recorder = false)
    (h2 : s.error = Option.none) :
    (stopConversation Option.none s).1.status = ConvStatus.idle ∧
    (stopConversation Option.none s).1.error = Option.none ∧
    (stopConversation Option.none s).2 = [] := by
  simp [stopConversation, h1, h2]

/-- Witness for C8 at the hook's initial state. -/
theorem C8_stop_idle_noop_witness :
    (hookInit.recorder = false ∧ hookInit.error = Option.none) ∧
    (stopConversation Option.none hookInit).1.status = ConvStatus.idle ∧
    (stopConversation Option.none hookInit).1.error = Option.none ∧
    (stopConversation Option.none hookInit).2 = [] :=
  ⟨⟨rfl, rfl⟩, C8_stop_idle_noop hookInit rfl rfl⟩

/-- C9: with the audio context initialized, a capability probe identifying
neither Safari nor Chrome makes start() reach the error state with the
descriptive "Unsupported browser" error and never proceed to open a channel;
the guard is a total function, matching the absence of any throwing path. -/
theorem C9_unsupported_browser (s : HookState) :
    (startConversationGuard true false false s).1.status = ConvStatus.error ∧
    (startConversationGuard true false false s).1.error = some ("Unsupported browser") ∧
    (startConversationGuard true false false s).2.2 = false := by
  cases hr : s.recorder <;> cases hs : s.socket <;>
    simp [startConversationGuard, stopConversation, hr, hs]

/-- C10: a captured chunk whose base64 encoding is null, or one arriving while
the channel readyState is not OPEN, produces no outbound websocket_audio
message and records no error. -/
theorem C10_silent_drop (b64 : Option String) (rs : Nat)
    (h : b64 = Option.none ∨ rs ≠ wsOPEN) :
    (recordingDataListener b64 rs).1 = Option.none ∧
    (recordingDataListener b64 rs).2 = Option.none := by
  rcases b64 with _ | b
  · exact ⟨rfl, rfl⟩
  · rcases h with h | h
    · simp at h
    · simp [recordingDataListener, h]

/-- Witness for C10 at a null base64 payload and a CONNECTING readyState. -/
theorem C10_silent_drop_witness :
    ((Option.none : Option String) = Option.none ∨ (0 : Nat) ≠ wsOPEN) ∧
    (recordingDataListener Option.none 0).1 = Option.none ∧
    (recordingDataListener Option.none 0).2 = Option.none :=
  ⟨Or.inl rfl, C10_silent_drop Option.none 0 (Or.inl rfl)⟩

/-- C1 (amended): per start() invocation the start-variant message is sent
exactly once, strictly after the socket reached the OPEN state, and strictly
before any outbound websocket_audio message: on every reachable state the sent
list holds at most one start variant; once it was sent the socket is open and
the count is exactly one; and every audio message in the sent list is preceded
by the start variant.  The original claim's stronger ordering against the
inbound websocket_ready signal fails, see the counterexample. -/
theorem C1_start_handshake (s : ProtoState) (h : ProtoReachable s) :
    s.sent.count ProtoMsg.startVariant ≤ 1 ∧
    (s.startSent = true →
      s.sent.count ProtoMsg.startVariant = 1 ∧ s.socketOpen = true) ∧
    (∀ (l1 : List ProtoMsg) (d : String) (l2 : List ProtoMsg),
      s.sent = l1 ++ ProtoMsg.audio d :: l2 → ProtoMsg.startVariant ∈ l1) := by
  obtain ⟨inv1, inv2, inv3⟩ := protoInv_reachable s h
  by_cases hss : s.startSent = true
  · obtain ⟨ho, l, hl, hall⟩ := inv3 hss
    have hnot : ProtoMsg.startVariant ∉ l := by
      intro hmem
      obtain ⟨d, hd⟩ := hall _ hmem
      exact ProtoMsg.noConfusion hd
    have hcount : s.sent.count ProtoMsg.startVariant = 1 := by
      rw [hl, List.count_cons]
      simp [List.count_eq_zero.mpr hnot]
    refine ⟨le_of_eq hcount, fun _ => ⟨hcount, ho⟩, ?_⟩
    intro l1 d l2 heq
    rw [hl] at heq
    cases l1 with
    | nil => simp at heq
    | cons a t =>
      rw [List.cons_append] at heq
      injection heq with ha _
      rw [← ha]
      exact List.mem_cons_self _ _
  · have hs0 : s.startSent = false := by simpa using hss
    have hsent := inv2 hs0
    refine ⟨by simp [hsent], fun hc => absurd hc hss, ?_⟩
    intro l1 d l2 heq
    rw [hsent] at heq
    cases l1 <;> simp at heq

/-- Witness for C1 at the concrete state reached by a full handshake followed
by one captured chunk: start called, socket opened, ready received, start
variant sent, one audio message sent. -/
theorem C1_start_handshake_witness :
    (⟨ConvStatus.connected, true, true, true, true, true,
        [ProtoMsg.startVariant, ProtoMsg.audio ("d")]⟩ : ProtoState).sent.count
      ProtoMsg.startVariant ≤ 1 ∧
    ((⟨ConvStatus.connected, true, true, true, true, true,
        [ProtoMsg.startVariant, ProtoMsg.audio ("d")]⟩ : ProtoState).startSent = true →
      (⟨ConvStatus.connected, true, true, true, true, true,
        [ProtoMsg.startVariant, ProtoMsg.audio ("d")]⟩ : ProtoState).sent.count
        ProtoMsg.startVariant = 1 ∧
      (⟨ConvStatus.connected, true, true, true, true, true,
        [ProtoMsg.startVariant, ProtoMsg.audio ("d")]⟩ : ProtoState).socketOpen = true) ∧
    (∀ (l1 : List ProtoMsg) (d : String) (l2 : List ProtoMsg),
      (⟨ConvStatus.connected, true, true, true, true, true,
        [ProtoMsg.startVariant, ProtoMsg.audio ("d")]⟩ : ProtoState).sent =
        l1 ++ ProtoMsg.audio d :: l2 → ProtoMsg.startVariant ∈ l1) := by
  have h1 : ProtoReachable
      (⟨ConvStatus.connecting, false, false, false, false, true, []⟩ : ProtoState) :=
    ProtoReachable.step ProtoReachable.init (ProtoStep.startCalled protoInit)
  have h2 : ProtoReachable
      (⟨ConvStatus.connecting, true, false, false, false, true, []⟩ : ProtoState) :=
    ProtoReachable.step h1 (ProtoStep.socketOpened _ rfl)
  have h3 : ProtoReachable
      (⟨ConvStatus.connected, true, false, true, false, true, []⟩ : ProtoState) :=
    ProtoReachable.step h2 (ProtoStep.recvReady _ rfl)
  have h4 : ProtoReachable
      (⟨ConvStatus.connected, true, true, true, true, true,
        [ProtoMsg.startVariant]⟩ : ProtoState) :=
    ProtoReachable.step h3 (ProtoStep.sendStart _ rfl rfl)
  have h5 : ProtoReachable
      (⟨ConvStatus.connected, true, true, true, true, true,
        [ProtoMsg.startVariant, ProtoMsg.audio ("d")]⟩ : ProtoState) :=
    ProtoReachable.step h4 (ProtoStep.dataAvailable _ ("d") rfl rfl rfl)
  exact C1_start_handshake _ h5

/-- Counterexample to C1 as stated: the state in which start() was called and
the socket just reached OPEN is reachable, has not observed the inbound
websocket_ready signal, and the code sends the start-variant message from it —
so the start variant is not sent strictly after the ready signal. -/
theorem C1_counterexample :
    ProtoReachable
      (⟨ConvStatus.connecting, true, false, false, false, true, []⟩ : ProtoState) ∧
    ProtoStep (⟨ConvStatus.connecting, true, false, false, false, true, []⟩ : ProtoState)
      ProtoEvent.sendStart
      (⟨ConvStatus.connecting, true, true, false, true, true,
        [ProtoMsg.startVariant]⟩ : ProtoState) ∧
    (⟨ConvStatus.connecting, true, false, false, false, true, []⟩ : ProtoState).readySeen
      = false := by
  refine ⟨?_, ?_, rfl⟩
  · exact ProtoReachable.step
      (ProtoReachable.step ProtoReachable.init (ProtoStep.startCalled protoInit))
      (ProtoStep.socketOpened _ rfl)
  · exact ProtoStep.sendStart _ rfl rfl

/-- C4: the playback queue is a FIFO with a single consumer: on every reachable
state at most one chunk is inside a playback task, nothing plays while the
processing flag is clear, the play-start history followed by the pending queue
equals the arrival history (strict arrival order, no drops, no duplicates), and
the speaker is agent whenever a chunk is playing; concretely, enqueuing chunks
10, 20, 30 and draining reaches the state that played exactly 10, 20, 30 in
order and hands the speaker back to user on the last completion with an empty
queue. -/
theorem C4_playback_fifo :
    (∀ s : PlayState, PlayReachable s →
      s.playing.length ≤ 1 ∧
      (s.processing = false → s.playing = []) ∧
      s.played ++ s.queue = s.arrived ∧
      (s.playing ≠ [] → s.speaker = CurrentSpeaker.agent)) ∧
    PlayReachable
      (⟨[], false, [], CurrentSpeaker.user, true, [10, 20, 30], [10, 20, 30]⟩ : PlayState) := by
  refine ⟨playInv_reachable, ?_⟩
  have p1 : PlayReachable (⟨[10], false, [], CurrentSpeaker.none, true, [10], []⟩ : PlayState) :=
    PlayReachable.step PlayReachable.init (PlayStep.enqueue playInit 10)
  have p2 : PlayReachable
      (⟨[10, 20], false, [], CurrentSpeaker.none, true, [10, 20], []⟩ : PlayState) :=
    PlayReachable.step p1 (PlayStep.enqueue _ 20)
  have p3 : PlayReachable
      (⟨[10, 20, 30], false, [], CurrentSpeaker.none, true, [10, 20, 30], []⟩ : PlayState) :=
    PlayReachable.step p2 (PlayStep.enqueue _ 30)
  have p4 : PlayReachable
      (⟨[20, 30], true, [10], CurrentSpeaker.agent, true, [10, 20, 30], [10]⟩ : PlayState) :=
    PlayReachable.step p3 (PlayStep.beginPlay _ 10 [20, 30] rfl rfl rfl)
  have p5 : PlayReachable
      (⟨[20, 30], false, [], CurrentSpeaker.agent, true, [10, 20, 30], [10]⟩ : PlayState) :=
    PlayReachable.step p4 (PlayStep.endPlay _ 10 [] rfl)
  have p6 : PlayReachable
      (⟨[30], true, [20], CurrentSpeaker.agent, true, [10, 20, 30], [10, 20]⟩ : PlayState) :=
    PlayReachable.step p5 (PlayStep.beginPlay _ 20 [30] rfl rfl rfl)
  have p7 : PlayReachable
      (⟨[30], false, [], CurrentSpeaker.agent, true, [10, 20, 30], [10, 20]⟩ : PlayState) :=
    PlayReachable.step p6 (PlayStep.endPlay _ 20 [] rfl)
  have p8 : PlayReachable
      (⟨[], true, [30], CurrentSpeaker.agent, true, [10, 20, 30], [10, 20, 30]⟩ : PlayState) :=
    PlayReachable.step p7 (PlayStep.beginPlay _ 30 [] rfl rfl rfl)
  exact PlayReachable.step p8 (PlayStep.endPlay _ 30 [] rfl)

/-- Witness for C4 at the initial playback state. -/
theorem C4_playback_fifo_witness :
    playInit.playing.length ≤ 1 ∧
    (playInit.processing = false → playInit.playing = []) ∧
    playInit.played ++ playInit.queue = playInit.arrived ∧
    (playInit.playing ≠ [] → playInit.speaker = CurrentSpeaker.agent) :=
  C4_playback_fifo.1 playInit PlayReachable.init

/-- C5: while the active flag is down no step of the playback system starts a
chunk — the play history is unchanged and the queue only accumulates; and the
concrete scenario of disabling playback, queueing chunks 1 and 2, re-enabling
and draining reaches the state that played exactly 1, 2 in their original
order, none dropped and none duplicated. -/
theorem C5_pause_preserves_backlog :
    (∀ s s2 : PlayState, s.active = false → PlayStep s s2 →
      s2.played = s.played ∧ ∃ add, s2.queue = s.queue ++ add) ∧
    PlayReachable
      (⟨[1, 2], false, [], CurrentSpeaker.none, false, [1, 2], []⟩ : PlayState) ∧
    PlayReachable
      (⟨[], false, [], CurrentSpeaker.user, true, [1, 2], [1, 2]⟩ : PlayState) := by
  have hpaused : PlayReachable
      (⟨[1, 2], false, [], CurrentSpeaker.none, false, [1, 2], []⟩ : PlayState) := by
    have q1 : PlayReachable
        (⟨[], false, [], CurrentSpeaker.none, false, [], []⟩ : PlayState) :=
      PlayReachable.step PlayReachable.init (PlayStep.setActive playInit false)
    have q2 : PlayReachable
        (⟨[1], false, [], CurrentSpeaker.none, false, [1], []⟩ : PlayState) :=
      PlayReachable.step q1 (PlayStep.enqueue _ 1)
    exact PlayReachable.step q2 (PlayStep.enqueue _ 2)
  refine ⟨?_, hpaused, ?_⟩
  · intro s s2 ha hstep
    cases hstep with
    | enqueue c => exact ⟨rfl, [c], rfl⟩
    | beginPlay c rest h1 h2 h3 =>
      rw [ha] at h3
      exact Bool.noConfusion h3
    | endPlay c rest h => exact ⟨rfl, [], by simp⟩
    | setActive b => exact ⟨rfl, [], by simp⟩
  · have q4 : PlayReachable
        (⟨[1, 2], false, [], CurrentSpeaker.none, true, [1, 2], []⟩ : PlayState) :=
      PlayReachable.step hpaused (PlayStep.setActive _ true)
    have q5 : PlayReachable
        (⟨[2], true, [1], CurrentSpeaker.agent, true, [1, 2], [1]⟩ : PlayState) :=
      PlayReachable.step q4 (PlayStep.beginPlay _ 1 [2] rfl rfl rfl)
    have q6 : PlayReachable
        (⟨[2], false, [], CurrentSpeaker.agent, true, [1, 2], [1]⟩ : PlayState) :=
      PlayReachable.step q5 (PlayStep.endPlay _ 1 [] rfl)
    have q7 : PlayReachable
        (⟨[], true, [2], CurrentSpeaker.agent, true, [1, 2], [1, 2]⟩ : PlayState) :=
      PlayReachable.step q6 (PlayStep.beginPlay _ 2 [] rfl rfl rfl)
    exact PlayReachable.step q7 (PlayStep.endPlay _ 2 [] rfl)

/-- Witness for C5: an enqueue step taken from the concrete paused state with
chunks 1 and 2 queued keeps the play history and only appends to the queue. -/
theorem C5_pause_preserves_backlog_witness :
    ((⟨[1, 2], false, [], CurrentSpeaker.none, false, [1, 2], []⟩ : PlayState).active
      = false) ∧
    ((⟨[1, 2, 3], false, [], CurrentSpeaker.none, false, [1, 2, 3], []⟩ : PlayState).played =
      (⟨[1, 2], false, [], CurrentSpeaker.none, false, [1, 2], []⟩ : PlayState).played ∧
    ∃ add, (⟨[1, 2, 3], false, [], CurrentSpeaker.none, false, [1, 2, 3], []⟩ :
        PlayState).queue =
      (⟨[1, 2], false, [], CurrentSpeaker.none, false, [1, 2], []⟩ : PlayState).queue
        ++ add) :=
  ⟨rfl, C5_pause_preserves_backlog.1 _ _ rfl (PlayStep.enqueue _ 3)⟩

end VocodeReactSDK
